import Mathlib

/-!
A shallow embedding of the core of the tastytrade-rs client
(src/client.rs and src/api/order.rs), together with theorems checking the
natural-language specification against it.

JSON values are modelled post-lexing: a number token keeps its literal
text, matching the arbitrary-precision number representation the client
compiles serde_json with (rust_decimal's `arbitrary_precision` codec
round-trips the literal).
-/

namespace Tasty

/-- JSON value, with number tokens kept as their literal text. -/
inductive Json where
  | null : Json
  | bool (b : Bool) : Json
  | num (lit : String) : Json
  | str (s : String) : Json
  | arr (elems : List Json) : Json
  | obj (fields : List (String × Json)) : Json

/-- Key lookup in a JSON object; `none` on non-objects and absent keys.
Later bindings of a repeated key are ignored, as in serde structs. -/
def Json.lookup (k : String) : Json → Option Json
  | .obj fields => List.lookup k fields
  | _ => none

/-- The keys of a JSON object, in emission order. -/
def Json.objKeys : Json → Option (List String)
  | .obj fields => some (fields.map Prod.fst)
  | _ => none

/-- Deserialization errors, mirroring the serde error constructors the
embedded decoders can hit. `unknownVariant` carries the offending string
and the expected wire strings, exactly the two arguments of serde's
`Error::unknown_variant(variant, VARIANTS)`. -/
inductive DeError where
  | unknownVariant (got : String) (expected : List String)
  | missingField (name : String)
  | invalidType (expected : String)
  | invalidNumber (lit : String)
  | untaggedMismatch
deriving DecidableEq, Repr

/-- `PriceEffect` from src/api/order.rs (no serde renames: wire strings are
the variant identifiers). -/
inductive PriceEffect where
  | Debit
  | Credit
  | None
deriving DecidableEq, Repr

/-- Variants of `PriceEffect` in declaration order. -/
def PriceEffect.variants : List PriceEffect := [.Debit, .Credit, .None]

/-- serde `Serialize` for `PriceEffect`: each unit variant emits its
identifier verbatim. -/
def PriceEffect.encode : PriceEffect → String
  | .Debit => "Debit"
  | .Credit => "Credit"
  | .None => "None"

/-- `Action` from src/api/order.rs, with the four explicit
`#[serde(rename)]` wire strings. -/
inductive Action where
  | BuyToOpen
  | SellToOpen
  | BuyToClose
  | SellToClose
  | Sell
  | Buy
deriving DecidableEq, Repr

/-- Variants of `Action` in declaration order. -/
def Action.variants : List Action :=
  [.BuyToOpen, .SellToOpen, .BuyToClose, .SellToClose, .Sell, .Buy]

/-- serde `Serialize` for `Action`: renamed variants emit their rename,
the rest their identifier. -/
def Action.encode : Action → String
  | .BuyToOpen => "Buy to Open"
  | .SellToOpen => "Sell to Open"
  | .BuyToClose => "Buy to Close"
  | .SellToClose => "Sell to Close"
  | .Sell => "Sell"
  | .Buy => "Buy"

/-- `InstrumentType` from src/api/order.rs. -/
inductive InstrumentType where
  | Equity
  | EquityOption
  | EquityOffering
  | Future
  | FutureOption
  | Cryptocurrency
deriving DecidableEq, Repr

/-- Variants of `InstrumentType` in declaration order. -/
def InstrumentType.variants : List InstrumentType :=
  [.Equity, .EquityOption, .EquityOffering, .Future, .FutureOption,
   .Cryptocurrency]

/-- serde `Serialize` for `InstrumentType`. -/
def InstrumentType.encode : InstrumentType → String
  | .Equity => "Equity"
  | .EquityOption => "Equity Option"
  | .EquityOffering => "Equity Offering"
  | .Future => "Future"
  | .FutureOption => "Future Option"
  | .Cryptocurrency => "Cryptocurrency"

/-- `OrderType` from src/api/order.rs. -/
inductive OrderType where
  | Limit
  | Market
  | MarketableLimit
  | Stop
  | StopLimit
  | NotionalMarket
deriving DecidableEq, Repr

/-- Variants of `OrderType` in declaration order. -/
def OrderType.variants : List OrderType :=
  [.Limit, .Market, .MarketableLimit, .Stop, .StopLimit, .NotionalMarket]

/-- serde `Serialize` for `OrderType`. -/
def OrderType.encode : OrderType → String
  | .Limit => "Limit"
  | .Market => "Market"
  | .MarketableLimit => "Marketable Limit"
  | .Stop => "Stop"
  | .StopLimit => "Stop Limit"
  | .NotionalMarket => "Notional Market"

/-- `TimeInForce` from src/api/order.rs. -/
inductive TimeInForce where
  | Day
  | GTC
  | GTD
  | Ext
  | GTCExt
  | IOC
deriving DecidableEq, Repr

/-- Variants of `TimeInForce` in declaration order. -/
def TimeInForce.variants : List TimeInForce :=
  [.Day, .GTC, .GTD, .Ext, .GTCExt, .IOC]

/-- serde `Serialize` for `TimeInForce`. -/
def TimeInForce.encode : TimeInForce → String
  | .Day => "Day"
  | .GTC => "GTC"
  | .GTD => "GTD"
  | .Ext => "Ext"
  | .GTCExt => "GTC Ext"
  | .IOC => "IOC"

/-- `OrderStatus` from src/api/order.rs (13 lifecycle values). -/
inductive OrderStatus where
  | Received
  | Routed
  | InFlight
  | Live
  | CancelRequested
  | ReplaceRequested
  | Contingent
  | Filled
  | Cancelled
  | Expired
  | Rejected
  | Removed
  | PartiallyRemoved
deriving DecidableEq, Repr

/-- Variants of `OrderStatus` in declaration order. -/
def OrderStatus.variants : List OrderStatus :=
  [.Received, .Routed, .InFlight, .Live, .CancelRequested, .ReplaceRequested,
   .Contingent, .Filled, .Cancelled, .Expired, .Rejected, .Removed,
   .PartiallyRemoved]

/-- serde `Serialize` for `OrderStatus`. -/
def OrderStatus.encode : OrderStatus → String
  | .Received => "Received"
  | .Routed => "Routed"
  | .InFlight => "In Flight"
  | .Live => "Live"
  | .CancelRequested => "Cancel Requested"
  | .ReplaceRequested => "Replace Requested"
  | .Contingent => "Contingent"
  | .Filled => "Filled"
  | .Cancelled => "Cancelled"
  | .Expired => "Expired"
  | .Rejected => "Rejected"
  | .Removed => "Removed"
  | .PartiallyRemoved => "Partially Removed"

/-- The known wire strings of an enum, in variant declaration order: what
serde passes to `Error::unknown_variant` as the expected list. -/
def wireStrings {E : Type} (encode : E → String) (variants : List E) :
    List String :=
  variants.map encode

/-- serde `Deserialize` for a unit-variant enum: match the incoming string
against each variant's wire string in declaration order; an unmatched
string raises `unknown_variant` with the string and the expected list. -/
def decodeEnum {E : Type} (encode : E → String) (variants : List E)
    (s : String) : Except DeError E :=
  match variants.find? (fun v => encode v == s) with
  | some v => .ok v
  | none => .error (.unknownVariant s (wireStrings encode variants))

/-- serde `Deserialize` for `PriceEffect`. -/
def PriceEffect.decode : String → Except DeError PriceEffect :=
  decodeEnum PriceEffect.encode PriceEffect.variants

/-- serde `Deserialize` for `Action`. -/
def Action.decode : String → Except DeError Action :=
  decodeEnum Action.encode Action.variants

/-- serde `Deserialize` for `InstrumentType`. -/
def InstrumentType.decode : String → Except DeError InstrumentType :=
  decodeEnum InstrumentType.encode InstrumentType.variants

/-- serde `Deserialize` for `OrderType`. -/
def OrderType.decode : String → Except DeError OrderType :=
  decodeEnum OrderType.encode OrderType.variants

/-- serde `Deserialize` for `TimeInForce`. -/
def TimeInForce.decode : String → Except DeError TimeInForce :=
  decodeEnum TimeInForce.encode TimeInForce.variants

/-- serde `Deserialize` for `OrderStatus`. -/
def OrderStatus.decode : String → Except DeError OrderStatus :=
  decodeEnum OrderStatus.encode OrderStatus.variants

/-- A string outside an enum's wire-string set is rejected by the serde
match with `unknown_variant`, carrying the string and the expected list. -/
theorem decodeEnum_not_mem {E : Type} (encode : E → String)
    (variants : List E) (s : String)
    (h : s ∉ wireStrings encode variants) :
    decodeEnum encode variants s =
      .error (.unknownVariant s (wireStrings encode variants)) := by
  unfold decodeEnum
  have hfind : variants.find? (fun v => encode v == s) = none := by
    rw [List.find?_eq_none]
    intro v hv
    simp only [beq_iff_eq]
    intro he
    exact h (he ▸ List.mem_map_of_mem encode hv)
  rw [hfind]

/-- rust_decimal `Decimal`: a sign-and-magnitude integer mantissa with a
decimal scale (number of fractional digits). The representable range is a
96-bit magnitude and scale at most 28. -/
structure Decimal where
  mantissa : Int
  scale : Nat
deriving DecidableEq, Repr

/-- Digit accumulator: peels decimal digits off `n` least significant
first, prepending each to the accumulator; the fuel bounds the digit
count and is always sufficient at the call site below. -/
def natToDigitsAux : Nat → Nat → List Char → List Char
  | 0, _, acc => acc
  | fuel + 1, n, acc =>
    if n < 10 then Char.ofNat (48 + n) :: acc
    else natToDigitsAux fuel (n / 10) (Char.ofNat (48 + n % 10) :: acc)

/-- Digits of a natural number, most significant first, as characters. -/
def natToDigits (n : Nat) : List Char :=
  natToDigitsAux (n + 1) n []

/-- rust_decimal `Display` for `Decimal`: the magnitude's digits with a
decimal point inserted `scale` digits from the right (zero-padded on the
left so the integer part is nonempty), preceded by a minus sign for
negative values. `toString` of a `Decimal` in Rust is exactly this. -/
def Decimal.toStringRepr (d : Decimal) : String :=
  let ds := natToDigits d.mantissa.natAbs
  let ds := List.replicate (d.scale + 1 - ds.length) '0' ++ ds
  let intPart := String.mk (ds.take (ds.length - d.scale))
  let fracPart := String.mk (ds.drop (ds.length - d.scale))
  let sign := if d.mantissa < 0 then "-" else ""
  if d.scale = 0 then sign ++ intPart
  else sign ++ intPart ++ "." ++ fracPart

/-- Digit-string accumulator for `Decimal.fromStr`: consumes decimal
digits, tracking the mantissa built so far, the count of fractional digits
once the point was seen, and whether any digit appeared. Mirrors
rust_decimal's radix-10 parse loop (underscores are skipped there too). -/
def parseDecimalDigits :
    List Char → Nat → Option Nat → Bool → Option (Nat × Nat)
  | [], m, fracDigits, sawDigit =>
    if sawDigit then some (m, fracDigits.getD 0) else none
  | c :: cs, m, fracDigits, sawDigit =>
    if c = '_' then parseDecimalDigits cs m fracDigits sawDigit
    else if c = '.' then
      match fracDigits with
      | some _ => none
      | none => parseDecimalDigits cs m (some 0) sawDigit
    else if c.isDigit then
      parseDecimalDigits cs (10 * m + (c.toNat - 48))
        (fracDigits.map (· + 1)) true
    else none

/-- rust_decimal `FromStr` for `Decimal`, on the in-range inputs the wire
format carries: optional sign, decimal digits with at most one point,
magnitude below 2^96 and scale at most 28. (Out-of-range inputs, which
rust_decimal resolves by rounding excess precision or reporting overflow,
are not exercised by any theorem below and are modelled as `none`.) -/
def Decimal.fromStr (s : String) : Option Decimal :=
  let chars := s.data
  let (neg, rest) :=
    match chars with
    | '-' :: cs => (true, cs)
    | '+' :: cs => (false, cs)
    | cs => (false, cs)
  match parseDecimalDigits rest 0 none false with
  | none => none
  | some (m, scale) =>
    if m < 2 ^ 96 ∧ scale ≤ 28 then
      some ⟨if neg then -(m : Int) else (m : Int), scale⟩
    else none

/-- rust_decimal's `arbitrary_precision` serializer: the decimal's display
string becomes the JSON number literal verbatim
(`serde_json::Number::from_str(&value.to_string())` under the
arbitrary-precision feature keeps the literal unchanged). -/
def arbitraryPrecisionEncode (d : Decimal) : Json :=
  .num d.toStringRepr

/-- rust_decimal's `DecimalVisitor` as used by the `arbitrary_precision`
deserializer: accepts a number token (its literal) or a string, parses it
as a decimal; anything else is a type error. -/
def decodeDecimal : Json → Except DeError Decimal
  | .num lit =>
    match Decimal.fromStr lit with
    | some d => .ok d
    | none => .error (.invalidNumber lit)
  | .str s =>
    match Decimal.fromStr s with
    | some d => .ok d
    | none => .error (.invalidNumber s)
  | _ => .error (.invalidType "a Decimal type representing a fixed-point number")

/-- rust_decimal's `float` serializer renders the value as an f64 JSON
number. For the decimals the theorems below touch (exactly representable
in f64), ryu prints the decimal digits, with a forced `.0` on integers;
only the fact that the result is a number token is used by any theorem. -/
def Decimal.floatLit (d : Decimal) : String :=
  if d.scale = 0 then d.toStringRepr ++ ".0" else d.toStringRepr

/-- `Symbol` from src/api/order.rs: a transparent newtype over a string. -/
structure Symbol where
  raw : String
deriving DecidableEq, Repr

/-- `OrderLeg` from src/api/order.rs. -/
structure OrderLeg where
  instrument_type : InstrumentType
  symbol : Symbol
  quantity : Decimal
  action : Action
deriving DecidableEq, Repr

/-- `Order` from src/api/order.rs: the outbound, builder-constructed
order. -/
structure Order where
  time_in_force : TimeInForce
  order_type : OrderType
  price : Decimal
  price_effect : PriceEffect
  legs : List OrderLeg
deriving DecidableEq, Repr

/-- The error type of the derive_builder-generated `OrderBuilder::build`:
`UninitializedField` carrying the field's identifier. -/
inductive OrderBuilderError where
  | uninitializedField (name : String)
deriving DecidableEq, Repr

/-- The derive_builder-generated `OrderBuilder`: every field of `Order`
held as an `Option`, all starting unset. -/
structure OrderBuilder where
  time_in_force : Option TimeInForce := none
  order_type : Option OrderType := none
  price : Option Decimal := none
  price_effect : Option PriceEffect := none
  legs : Option (List OrderLeg) := none
deriving DecidableEq, Repr

/-- `OrderBuilder::default()`: all fields unset. -/
def OrderBuilder.empty : OrderBuilder := {}

/-- The derive_builder setter for `time_in_force`. -/
def OrderBuilder.setTimeInForce (b : OrderBuilder) (v : TimeInForce) :
    OrderBuilder :=
  { b with time_in_force := some v }

/-- The derive_builder setter for `order_type`. -/
def OrderBuilder.setOrderType (b : OrderBuilder) (v : OrderType) :
    OrderBuilder :=
  { b with order_type := some v }

/-- The derive_builder setter for `price`. -/
def OrderBuilder.setPrice (b : OrderBuilder) (v : Decimal) : OrderBuilder :=
  { b with price := some v }

/-- The derive_builder setter for `price_effect`. -/
def OrderBuilder.setPriceEffect (b : OrderBuilder) (v : PriceEffect) :
    OrderBuilder :=
  { b with price_effect := some v }

/-- The derive_builder setter for `legs`. -/
def OrderBuilder.setLegs (b : OrderBuilder) (v : List OrderLeg) :
    OrderBuilder :=
  { b with legs := some v }

/-- derive_builder's generated `build`: unwrap each field in declaration
order, returning `UninitializedField` with the first unset field's name
(the `ok_or` chain short-circuits at the first `None`). -/
def OrderBuilder.build (b : OrderBuilder) : Except OrderBuilderError Order :=
  match b.time_in_force with
  | none => .error (.uninitializedField "time_in_force")
  | some tif =>
    match b.order_type with
    | none => .error (.uninitializedField "order_type")
    | some ot =>
      match b.price with
      | none => .error (.uninitializedField "price")
      | some p =>
        match b.price_effect with
        | none => .error (.uninitializedField "price_effect")
        | some pe =>
          match b.legs with
          | none => .error (.uninitializedField "legs")
          | some ls => .ok ⟨tif, ot, p, pe, ls⟩

/-- serde `Serialize` for `OrderLeg` (`rename_all = "kebab-case"`), fields
in declaration order; `quantity` goes through the `float` codec. -/
def OrderLeg.toJson (l : OrderLeg) : Json :=
  .obj [("instrument-type", .str (InstrumentType.encode l.instrument_type)),
        ("symbol", .str l.symbol.raw),
        ("quantity", .num (Decimal.floatLit l.quantity)),
        ("action", .str (Action.encode l.action))]

/-- serde `Serialize` for `Order` (`rename_all = "kebab-case"`), fields in
declaration order; `price` goes through the arbitrary-precision codec. -/
def Order.toJson (o : Order) : Json :=
  .obj [("time-in-force", .str (TimeInForce.encode o.time_in_force)),
        ("order-type", .str (OrderType.encode o.order_type)),
        ("price", arbitraryPrecisionEncode o.price),
        ("price-effect", .str (PriceEffect.encode o.price_effect)),
        ("legs", .arr (o.legs.map OrderLeg.toJson))]

/-- `BuyingPowerEffect` from src/api/order.rs: the decoded net
collateral/margin impact of an order. Field order and the pairing of each
decimal amount with its effect follow the struct declaration. -/
structure BuyingPowerEffect where
  change_in_margin_requirement : Decimal
  change_in_margin_requirement_effect : PriceEffect
  change_in_buying_power : Decimal
  change_in_buying_power_effect : PriceEffect
  current_buying_power : Decimal
  current_buying_power_effect : PriceEffect
  new_buying_power : Decimal
  new_buying_power_effect : PriceEffect
  isolated_order_margin_requirement : Decimal
  isolated_order_margin_requirement_effect : PriceEffect
  is_spread : Bool
  impact : Decimal
  effect : PriceEffect
deriving DecidableEq, Repr

/-- The decimal amounts of a `BuyingPowerEffect`, each with the
`PriceEffect` field declared beside it in the struct. -/
def BuyingPowerEffect.decimalAmounts (b : BuyingPowerEffect) :
    List (Decimal × PriceEffect) :=
  [(b.change_in_margin_requirement, b.change_in_margin_requirement_effect),
   (b.change_in_buying_power, b.change_in_buying_power_effect),
   (b.current_buying_power, b.current_buying_power_effect),
   (b.new_buying_power, b.new_buying_power_effect),
   (b.isolated_order_margin_requirement,
    b.isolated_order_margin_requirement_effect),
   (b.impact, b.effect)]

/-- serde struct field access: absent keys raise `missing_field` with the
field's name. -/
def getField (fields : List (String × Json)) (k : String) :
    Except DeError Json :=
  match List.lookup k fields with
  | some j => .ok j
  | none => .error (.missingField k)

/-- serde `Deserialize` of a `PriceEffect`-typed field: the value must be
a string and must match a known wire string. -/
def decodePriceEffectField (j : Json) : Except DeError PriceEffect :=
  match j with
  | .str s => PriceEffect.decode s
  | _ => .error (.invalidType "variant identifier")

/-- serde `Deserialize` of a `bool` field. -/
def decodeBoolField : Json → Except DeError Bool
  | .bool b => .ok b
  | _ => .error (.invalidType "a boolean")

/-- serde `Deserialize` for `BuyingPowerEffect`
(`rename_all = "kebab-case"`): look up each field under its kebab-case
key and decode it; every field is required, unknown keys are ignored
(serde's default for structs). -/
def decodeBuyingPowerEffect (j : Json) : Except DeError BuyingPowerEffect :=
  match j with
  | .obj fields => do
    let cimr ← getField fields "change-in-margin-requirement" >>= decodeDecimal
    let cimrE ← getField fields "change-in-margin-requirement-effect"
      >>= decodePriceEffectField
    let cibp ← getField fields "change-in-buying-power" >>= decodeDecimal
    let cibpE ← getField fields "change-in-buying-power-effect"
      >>= decodePriceEffectField
    let cbp ← getField fields "current-buying-power" >>= decodeDecimal
    let cbpE ← getField fields "current-buying-power-effect"
      >>= decodePriceEffectField
    let nbp ← getField fields "new-buying-power" >>= decodeDecimal
    let nbpE ← getField fields "new-buying-power-effect"
      >>= decodePriceEffectField
    let iomr ← getField fields "isolated-order-margin-requirement"
      >>= decodeDecimal
    let iomrE ← getField fields "isolated-order-margin-requirement-effect"
      >>= decodePriceEffectField
    let spread ← getField fields "is-spread" >>= decodeBoolField
    let imp ← getField fields "impact" >>= decodeDecimal
    let eff ← getField fields "effect" >>= decodePriceEffectField
    pure ⟨cimr, cimrE, cibp, cibpE, cbp, cbpE, nbp, nbpE, iomr, iomrE,
          spread, imp, eff⟩
  | _ => .error (.invalidType "struct BuyingPowerEffect")

/-- Modelled from the spec: the broker error payload of `api/base.rs`
(not under src/) — "an error shape wrapping a broker-defined error
payload (code + message, at minimum)". -/
structure ApiError where
  code : String
  message : String
deriving DecidableEq, Repr

/-- Modelled from the spec: `TastyApiResponse` of `api/base.rs` (not
under src/) — "a tagged union/result type with exactly two variants
(`Success(payload)`, `Failure(error)`)"; `Success` carries the `data`
payload the client unwraps. -/
inductive TastyApiResponse (T : Type) where
  | Success (data : T)
  | Error (error : ApiError)
deriving DecidableEq, Repr

/-- Modelled from the spec: the typed error channel of `api/base.rs` (not
under src/) — the broker's structured error surfaced verbatim, or a
decode failure; the transport-failure kind never arises once a body is in
hand, so it is omitted here. -/
inductive TastyError where
  | broker (e : ApiError)
  | decode (e : DeError)
deriving DecidableEq, Repr

/-- Extraction of the success shape `\x7bdata: <payload>\x7d`: the body
is an object whose `data` value decodes as the expected payload type. -/
def successShapeOf {T : Type} (pd : Json → Except DeError T) (body : Json) :
    Option T :=
  match body with
  | .obj fields =>
    match List.lookup "data" fields with
    | some j => (pd j).toOption
    | none => none
  | _ => none

/-- Extraction of the error shape `\x7berror: \x7bcode, message, ...\x7d\x7d`:
the body is an object whose `error` value is an object with string `code`
and `message` fields (further fields ignored). -/
def errorShapeOf (body : Json) : Option ApiError :=
  match body with
  | .obj fields =>
    match List.lookup "error" fields with
    | some (.obj ef) =>
      match List.lookup "code" ef, List.lookup "message" ef with
      | some (.str c), some (.str m) => some ⟨c, m⟩
      | _, _ => none
    | _ => none
  | _ => none

/-- Modelled from the spec: the envelope parse of `api/base.rs` (not
under src/) — "given a raw response body, attempt to parse it as one of
two shapes carried on a discriminator ... decoded via structural
discriminator, never via HTTP status inspection alone". Serde's untagged
decoding tries the variants in declaration order: success shape first,
then error shape, else the untagged mismatch error. -/
def parseEnvelope {T : Type} (pd : Json → Except DeError T) (body : Json) :
    Except DeError (TastyApiResponse T) :=
  match successShapeOf pd body with
  | some d => .ok (.Success d)
  | none =>
    match errorShapeOf body with
    | some e => .ok (.Error e)
    | none => .error .untaggedMismatch

/-- The shared response handling of `TastyTrade::get` and
`TastyTrade::post` (src/client.rs): parse the body into the envelope and
match — `Success(s) => Ok(s.data)`, `Error \x7b error \x7d =>
Err(error.into())`; a body that fits neither shape surfaces the decode
error via `?`. The numeric HTTP status is in scope on the response but is
never consulted. -/
def parseResponse {T : Type} (pd : Json → Except DeError T)
    (_status : Nat) (body : Json) : Except TastyError T :=
  match parseEnvelope pd body with
  | .ok (.Success d) => .ok d
  | .ok (.Error e) => .error (.broker e)
  | .error e => .error (.decode e)

/-- `TastyTrade::get` (src/client.rs): issue the request, hand the raw
body to the `inspect_json` sink, then parse. Returns the sink's
observation paired with the typed outcome; the outcome is computed from
the body alone. -/
def getWithSink {T A : Type} (pd : Json → Except DeError T)
    (sink : Json → A) (status : Nat) (body : Json) :
    A × Except TastyError T :=
  (sink body, parseResponse pd status body)

/-- The outcome of `TastyTrade::post` (src/client.rs): serializing the
payload with `serde_json::to_string(&payload).unwrap()` panics when
serialization fails; otherwise the request proceeds and the response is
parsed exactly as in `get`. -/
inductive PostOutcome (T : Type) where
  | panicked
  | completed (r : Except TastyError T)

/-- `TastyTrade::post` (src/client.rs), at JSON-value granularity: the
payload serializer yields `none` where `serde_json::to_string` would
return `Err` (making the `.unwrap()` panic), `some` where it succeeds. -/
def postOutcome {P T : Type} (ser : P → Option Json) (p : P)
    (pd : Json → Except DeError T) (status : Nat) (body : Json) :
    PostOutcome T :=
  match ser p with
  | none => .panicked
  | some _ => .completed (parseResponse pd status body)

/-- The outcome of `TastyTrade::post` with the diagnostic sink's
observation attached: a panic before the request when serialization
fails, otherwise the sink's observation of the raw body alongside the
parsed result. -/
inductive PostSinkOutcome (T A : Type) where
  | panicked
  | completed (observed : A) (r : Except TastyError T)

/-- The parse result of a `PostSinkOutcome`, dropping the sink's
observation. -/
def PostSinkOutcome.result {T A : Type} :
    PostSinkOutcome T A → Option (Except TastyError T)
  | .panicked => none
  | .completed _ r => some r

/-- `TastyTrade::post` (src/client.rs) with its `inspect_json` sink made
explicit: after a successful send, the sink observes the raw body before
parsing, and the body is parsed exactly as in `get`. -/
def postWithSink {P T A : Type} (ser : P → Option Json) (p : P)
    (pd : Json → Except DeError T) (sink : Json → A) (status : Nat)
    (body : Json) : PostSinkOutcome T A :=
  match ser p with
  | none => .panicked
  | some _ => .completed (sink body) (parseResponse pd status body)

/-- `serde_json::to_string` on a built `Order`: the derived serializer
never errors — every key is a string, and the only fallible codec,
`Number::from_str` on the price's display string, always succeeds because
`Decimal` displays as a plain decimal numeral. -/
def Order.serialize (o : Order) : Option Json :=
  some o.toJson

/-- Modelled from the spec: `LoginResponse` of `api/login.rs` (not under
src/) — the login payload from which the client "extracts the session
credential". -/
structure LoginResponse where
  session_token : String
deriving DecidableEq, Repr

/-- serde `Deserialize` for the modelled `LoginResponse`: the kebab-case
`session-token` string field. -/
def parseLoginResponse (j : Json) : Except DeError LoginResponse :=
  match j with
  | .obj fields =>
    match List.lookup "session-token" fields with
    | some (.str s) => .ok ⟨s⟩
    | some _ => .error (.invalidType "a string")
    | none => .error (.missingField "session-token")
  | _ => .error (.invalidType "struct LoginResponse")

/-- The `TastyTrade` client value (src/client.rs): after login it holds
the session token (the reqwest client's default headers are a function of
that token and two fixed strings). -/
structure TastyTrade where
  session_token : String
deriving DecidableEq, Repr

/-- http's `HeaderValue::from_str` byte validity, expressed per character:
tab, or a byte that is at least 32 and not 127 (DEL). Characters at or
above U+0080 encode to UTF-8 bytes that are all at least 0x80, which the
byte check accepts, so the per-character check agrees with the per-byte
one. -/
def isValidHeaderValue (s : String) : Bool :=
  s.data.all fun c =>
    c.toNat == 9 || (decide (32 ≤ c.toNat) && c.toNat != 127)

/-- The result of `TastyTrade::login` (src/client.rs): a typed error from
the envelope, a panic from the `HeaderValue::from_str(...).unwrap()` on
an invalid session token, or the constructed client. -/
inductive LoginOutcome where
  | failed (e : TastyError)
  | panicked
  | ok (client : TastyTrade)
deriving DecidableEq, Repr

/-- `TastyTrade::login` (src/client.rs): unwrap the envelope around the
login response, then build the default header map —
`HeaderValue::from_str(&response.session_token).unwrap()` panics exactly
when the token is not a valid header value (the two other header values
are fixed valid literals) — and return the client holding the token. -/
def login (status : Nat) (body : Json) : LoginOutcome :=
  match parseResponse parseLoginResponse status body with
  | .error e => .failed e
  | .ok resp =>
    if isValidHeaderValue resp.session_token then .ok ⟨resp.session_token⟩
    else .panicked

/-- The `buying-power-effect` object of the repository's own test payload
(src/api/order.rs, `test_derp`). -/
def buyingPowerEffectExampleJson : Json :=
  .obj [("change-in-margin-requirement", .str "9050.5"),
        ("change-in-margin-requirement-effect", .str "Debit"),
        ("change-in-buying-power", .str "9050.58"),
        ("change-in-buying-power-effect", .str "Debit"),
        ("current-buying-power", .str "10056.31"),
        ("current-buying-power-effect", .str "Credit"),
        ("new-buying-power", .str "1005.73"),
        ("new-buying-power-effect", .str "Credit"),
        ("isolated-order-margin-requirement", .str "9050.5"),
        ("isolated-order-margin-requirement-effect", .str "Debit"),
        ("is-spread", .bool false),
        ("impact", .str "9050.58"),
        ("effect", .str "Debit")]

/-- The record the test payload decodes to. -/
def buyingPowerEffectExample : BuyingPowerEffect :=
  ⟨⟨90505, 1⟩, .Debit, ⟨905058, 2⟩, .Debit, ⟨1005631, 2⟩, .Credit,
   ⟨100573, 2⟩, .Credit, ⟨90505, 1⟩, .Debit, false, ⟨905058, 2⟩, .Debit⟩

/-- C2: for every variant of each of the six wire enums — `Action`,
`InstrumentType`, `OrderType`, `TimeInForce`, `OrderStatus`,
`PriceEffect` — decoding the wire string produced by encoding the variant
yields the variant again. -/
theorem c2_enum_decode_encode_roundtrip :
    (∀ v : Action, Action.decode (Action.encode v) = .ok v) ∧
    (∀ v : InstrumentType,
      InstrumentType.decode (InstrumentType.encode v) = .ok v) ∧
    (∀ v : OrderType, OrderType.decode (OrderType.encode v) = .ok v) ∧
    (∀ v : TimeInForce, TimeInForce.decode (TimeInForce.encode v) = .ok v) ∧
    (∀ v : OrderStatus, OrderStatus.decode (OrderStatus.encode v) = .ok v) ∧
    (∀ v : PriceEffect, PriceEffect.decode (PriceEffect.encode v) = .ok v) :=
  ⟨fun v => by cases v <;> rfl,
   fun v => by cases v <;> rfl,
   fun v => by cases v <;> rfl,
   fun v => by cases v <;> rfl,
   fun v => by cases v <;> rfl,
   fun v => by cases v <;> rfl⟩

/-- C3 counterexample: decoding the unknown string "Bogus" as an `Action`
fails with the unknown-variant error carrying the offending string and
the expected wire strings — but the enum's name "Action" appears in
neither component of the error, so the error does not carry the enum's
name. -/
theorem c3_counterexample :
    Action.decode "Bogus" =
      .error (.unknownVariant "Bogus"
        ["Buy to Open", "Sell to Open", "Buy to Close", "Sell to Close",
         "Sell", "Buy"]) ∧
    "Bogus" ≠ "Action" ∧
    "Action" ∉ ["Buy to Open", "Sell to Open", "Buy to Close",
                "Sell to Close", "Sell", "Buy"] := by
  refine ⟨rfl, by decide, by decide⟩

/-- C3 amended: for each of the six wire enums, decoding any string
outside that enum's known wire-string set (matching is case- and
spacing-exact) fails with an unknown-variant error carrying the offending
string and the enum's known wire strings — the expected-variants list
serde attaches — and decoding never succeeds by falling back to a default
variant. -/
theorem c3_unknown_string_rejected (s : String) :
    (s ∉ wireStrings Action.encode Action.variants →
      Action.decode s =
        .error (.unknownVariant s (wireStrings Action.encode
          Action.variants))) ∧
    (s ∉ wireStrings InstrumentType.encode InstrumentType.variants →
      InstrumentType.decode s =
        .error (.unknownVariant s (wireStrings InstrumentType.encode
          InstrumentType.variants))) ∧
    (s ∉ wireStrings OrderType.encode OrderType.variants →
      OrderType.decode s =
        .error (.unknownVariant s (wireStrings OrderType.encode
          OrderType.variants))) ∧
    (s ∉ wireStrings TimeInForce.encode TimeInForce.variants →
      TimeInForce.decode s =
        .error (.unknownVariant s (wireStrings TimeInForce.encode
          TimeInForce.variants))) ∧
    (s ∉ wireStrings OrderStatus.encode OrderStatus.variants →
      OrderStatus.decode s =
        .error (.unknownVariant s (wireStrings OrderStatus.encode
          OrderStatus.variants))) ∧
    (s ∉ wireStrings PriceEffect.encode PriceEffect.variants →
      PriceEffect.decode s =
        .error (.unknownVariant s (wireStrings PriceEffect.encode
          PriceEffect.variants))) :=
  ⟨decodeEnum_not_mem _ _ s, decodeEnum_not_mem _ _ s,
   decodeEnum_not_mem _ _ s, decodeEnum_not_mem _ _ s,
   decodeEnum_not_mem _ _ s, decodeEnum_not_mem _ _ s⟩

/-- C3 witness: the string "Nope" is outside every enum's wire-string set
and is rejected by all six decoders with the unknown-variant error. -/
theorem c3_unknown_string_rejected_witness :
    Action.decode "Nope" =
      .error (.unknownVariant "Nope"
        (wireStrings Action.encode Action.variants)) ∧
    InstrumentType.decode "Nope" =
      .error (.unknownVariant "Nope"
        (wireStrings InstrumentType.encode InstrumentType.variants)) ∧
    OrderType.decode "Nope" =
      .error (.unknownVariant "Nope"
        (wireStrings OrderType.encode OrderType.variants)) ∧
    TimeInForce.decode "Nope" =
      .error (.unknownVariant "Nope"
        (wireStrings TimeInForce.encode TimeInForce.variants)) ∧
    OrderStatus.decode "Nope" =
      .error (.unknownVariant "Nope"
        (wireStrings OrderStatus.encode OrderStatus.variants)) ∧
    PriceEffect.decode "Nope" =
      .error (.unknownVariant "Nope"
        (wireStrings PriceEffect.encode PriceEffect.variants)) :=
  ⟨(c3_unknown_string_rejected "Nope").1 (by decide),
   (c3_unknown_string_rejected "Nope").2.1 (by decide),
   (c3_unknown_string_rejected "Nope").2.2.1 (by decide),
   (c3_unknown_string_rejected "Nope").2.2.2.1 (by decide),
   (c3_unknown_string_rejected "Nope").2.2.2.2.1 (by decide),
   (c3_unknown_string_rejected "Nope").2.2.2.2.2 (by decide)⟩

/-- C4: decoding the wire string "9050.50" through the
arbitrary-precision decimal codec keeps the original scale (two
fractional digits, mantissa 905050), and re-encoding produces exactly
the literal "9050.50" — the trailing zero preserved, not the normalized
"9050.5" — with no rounding applied to any digit. -/
theorem c4_decimal_scale_preserving_roundtrip :
    decodeDecimal (.str "9050.50") = .ok ⟨905050, 2⟩ ∧
    Decimal.fromStr "9050.50" = some ⟨905050, 2⟩ ∧
    arbitraryPrecisionEncode ⟨905050, 2⟩ = .num "9050.50" ∧
    (Decimal.mk 905050 2).toStringRepr = "9050.50" ∧
    "9050.50" ≠ "9050.5" :=
  ⟨rfl, rfl, rfl, rfl, by decide⟩

/-- C5 counterexample: the decoded `BuyingPowerEffect` of the
repository's own test payload carries six decimal amounts each paired
with its `PriceEffect`, not nine. -/
theorem c5_counterexample :
    decodeBuyingPowerEffect buyingPowerEffectExampleJson =
      .ok buyingPowerEffectExample ∧
    buyingPowerEffectExample.decimalAmounts.length = 6 ∧
    buyingPowerEffectExample.decimalAmounts.length ≠ 9 :=
  ⟨rfl, rfl, by decide⟩

/-- C5 amended: the decoded `BuyingPowerEffect` record contains six
decimal amounts, each paired with its own `PriceEffect` field, plus an
`is_spread` boolean flag; decoding a buying-power-effect payload
populates all of these fields. -/
theorem c5_buying_power_effect_fields :
    decodeBuyingPowerEffect buyingPowerEffectExampleJson =
      .ok buyingPowerEffectExample ∧
    buyingPowerEffectExample.decimalAmounts =
      [(⟨90505, 1⟩, .Debit), (⟨905058, 2⟩, .Debit), (⟨1005631, 2⟩, .Credit),
       (⟨100573, 2⟩, .Credit), (⟨90505, 1⟩, .Debit), (⟨905058, 2⟩, .Debit)] ∧
    buyingPowerEffectExample.is_spread = false :=
  ⟨rfl, rfl, rfl⟩

/-- C6 counterexample: on the fresh builder no setter was invoked, so the
price setter in particular was never invoked, yet `build` fails naming
"time_in_force" — the first field in declaration order — not "price". -/
theorem c6_counterexample :
    OrderBuilder.empty.price = none ∧
    OrderBuilder.empty.build =
      .error (.uninitializedField "time_in_force") ∧
    ("time_in_force" : String) ≠ "price" :=
  ⟨rfl, rfl, by decide⟩

/-- C6 amended: `build` fails with the uninitialized-field error naming
the first unset field in declaration order — for each of the five
required fields, when every field declared before it is set and it is
unset, the error names exactly that field; in particular it names
"price" when time-in-force and order type are set and price is unset —
and as long as any of the five required fields is unset, `build` never
yields an `Order`. -/
theorem c6_missing_field_detection (b : OrderBuilder) :
    (b.time_in_force = none →
      b.build = .error (.uninitializedField "time_in_force")) ∧
    (b.time_in_force.isSome = true → b.order_type = none →
      b.build = .error (.uninitializedField "order_type")) ∧
    (b.time_in_force.isSome = true → b.order_type.isSome = true →
      b.price = none → b.build = .error (.uninitializedField "price")) ∧
    (b.time_in_force.isSome = true → b.order_type.isSome = true →
      b.price.isSome = true → b.price_effect = none →
      b.build = .error (.uninitializedField "price_effect")) ∧
    (b.time_in_force.isSome = true → b.order_type.isSome = true →
      b.price.isSome = true → b.price_effect.isSome = true →
      b.legs = none → b.build = .error (.uninitializedField "legs")) ∧
    ((b.time_in_force = none ∨ b.order_type = none ∨ b.price = none ∨
        b.price_effect = none ∨ b.legs = none) →
      ∀ o : Order, b.build ≠ .ok o) := by
  obtain ⟨tif, ot, p, pe, ls⟩ := b
  rcases tif with _ | tif <;> rcases ot with _ | ot <;>
    rcases p with _ | p <;> rcases pe with _ | pe <;>
    rcases ls with _ | ls <;>
    simp [OrderBuilder.build]

/-- C6 witness: with time-in-force and order type set but price unset,
`build` fails naming "price" and yields no `Order`; with everything but
legs set, it fails naming "legs". -/
theorem c6_missing_field_detection_witness :
    ((OrderBuilder.empty.setTimeInForce .Day).setOrderType .Limit).build =
      .error (.uninitializedField "price") ∧
    ((OrderBuilder.empty.setTimeInForce .Day).setOrderType .Limit).build ≠
      .ok ⟨.Day, .Limit, ⟨1, 0⟩, .Debit, []⟩ ∧
    ((((OrderBuilder.empty.setTimeInForce .Day).setOrderType
        .Limit).setPrice ⟨1, 0⟩).setPriceEffect .Debit).build =
      .error (.uninitializedField "legs") :=
  ⟨(c6_missing_field_detection _).2.2.1 rfl rfl rfl,
   (c6_missing_field_detection _).2.2.2.2.2
     (Or.inr (Or.inr (Or.inl rfl))) _,
   (c6_missing_field_detection _).2.2.2.2.1 rfl rfl rfl rfl rfl⟩

/-- C7: serializing any built `Order` produces a JSON object with exactly
the five kebab-case keys in declaration order; the price goes through the
arbitrary-precision (scale-preserving) codec; every leg is an object with
exactly the four kebab-case leg keys, its quantity a JSON number in the
float wire form; and every enum-valued field carries its exact broker
wire string — in particular `Action.BuyToOpen` encodes as
"Buy to Open". -/
theorem c7_order_serialization_shape (o : Order) (l : OrderLeg) :
    o.toJson.objKeys =
      some ["time-in-force", "order-type", "price", "price-effect",
            "legs"] ∧
    o.toJson.lookup "time-in-force" =
      some (.str (TimeInForce.encode o.time_in_force)) ∧
    o.toJson.lookup "order-type" =
      some (.str (OrderType.encode o.order_type)) ∧
    o.toJson.lookup "price" = some (arbitraryPrecisionEncode o.price) ∧
    o.toJson.lookup "price" = some (.num o.price.toStringRepr) ∧
    o.toJson.lookup "price-effect" =
      some (.str (PriceEffect.encode o.price_effect)) ∧
    o.toJson.lookup "legs" = some (.arr (o.legs.map OrderLeg.toJson)) ∧
    l.toJson.objKeys =
      some ["instrument-type", "symbol", "quantity", "action"] ∧
    l.toJson.lookup "instrument-type" =
      some (.str (InstrumentType.encode l.instrument_type)) ∧
    l.toJson.lookup "symbol" = some (.str l.symbol.raw) ∧
    l.toJson.lookup "quantity" = some (.num (Decimal.floatLit l.quantity)) ∧
    l.toJson.lookup "action" = some (.str (Action.encode l.action)) ∧
    Action.encode .BuyToOpen = "Buy to Open" :=
  ⟨rfl, rfl, rfl, rfl, rfl, rfl, rfl, rfl, rfl, rfl, rfl, rfl, rfl⟩

/-- C1: for every response body, the shared response handling of `get`
and `post` is a function of the body alone — the same under any two HTTP
status codes — returning the decoded inner data payload exactly when the
body fits the success shape, and the decoded broker error exactly when
the success shape fails and the body fits the error shape; `post` parses
identically to `get` whenever its payload serializes. -/
theorem c1_envelope_outcome {T : Type} (pd : Json → Except DeError T)
    (s1 s2 : Nat) (body : Json) :
    parseResponse pd s1 body = parseResponse pd s2 body ∧
    (∀ d : T, parseResponse pd s1 body = .ok d ↔
      successShapeOf pd body = some d) ∧
    (∀ e : ApiError, parseResponse pd s1 body = .error (.broker e) ↔
      successShapeOf pd body = none ∧ errorShapeOf body = some e) ∧
    (∀ (P : Type) (ser : P → Option Json) (p : P) (j : Json),
      ser p = some j →
      postOutcome ser p pd s1 body = .completed (parseResponse pd s1 body)) := by
  refine ⟨rfl, ?_, ?_, ?_⟩
  · intro d
    rcases hs : successShapeOf pd body with _ | d' <;>
      rcases he : errorShapeOf body with _ | e' <;>
      simp [parseResponse, parseEnvelope, hs, he, eq_comm]
  · intro e
    rcases hs : successShapeOf pd body with _ | d' <;>
      rcases he : errorShapeOf body with _ | e' <;>
      simp [parseResponse, parseEnvelope, hs, he, eq_comm]
  · intro P ser p j h
    simp [postOutcome, h]

/-- C1 witness: a success-shape body yields the inner payload, an
error-shape body yields the broker error, and a successfully serialized
`post` payload completes with the same parse as `get`, at concrete
inputs. -/
theorem c1_envelope_outcome_witness :
    parseResponse Except.ok 200 (Json.obj [("data", Json.null)]) =
      .ok Json.null ∧
    parseResponse Except.ok 503
      (Json.obj [("error", Json.obj [("code", .str "x"),
                                     ("message", .str "y")])]) =
      .error (.broker ⟨"x", "y"⟩) ∧
    postOutcome (fun _ : Unit => some Json.null) () Except.ok 200
      (Json.obj [("data", Json.null)]) = .completed (.ok Json.null) :=
  ⟨((c1_envelope_outcome Except.ok 200 200
      (Json.obj [("data", Json.null)])).2.1 Json.null).mpr rfl,
   ((c1_envelope_outcome Except.ok 503 503
      (Json.obj [("error", Json.obj [("code", .str "x"),
        ("message", .str "y")])])).2.2.1 ⟨"x", "y"⟩).mpr ⟨rfl, rfl⟩,
   (c1_envelope_outcome Except.ok 200 200
      (Json.obj [("data", Json.null)])).2.2.2 Unit
      (fun _ => some Json.null) () Json.null rfl⟩

/-- C8: for every response body and any two diagnostic sink callbacks,
the parse outcome of `get` and of `post` is identical under either sink
— the sink observes the raw body before parsing but never alters the
decoded result, on both the success and the error path. -/
theorem c8_sink_independence {T A B P : Type}
    (pd : Json → Except DeError T) (sink1 : Json → A) (sink2 : Json → B)
    (ser : P → Option Json) (p : P) (status : Nat) (body : Json) :
    (getWithSink pd sink1 status body).2 =
      (getWithSink pd sink2 status body).2 ∧
    (getWithSink pd sink1 status body).1 = sink1 body ∧
    (postWithSink ser p pd sink1 status body).result =
      (postWithSink ser p pd sink2 status body).result := by
  refine ⟨rfl, rfl, ?_⟩
  cases h : ser p <;> simp [postWithSink, PostSinkOutcome.result, h]

/-- C9: whenever the login body's envelope yields a session token, login
panics (via the `HeaderValue::from_str(...).unwrap()`) exactly when the
token is not a valid HTTP header value, and otherwise — the panic branch
being unreachable for valid tokens — returns a client holding exactly
that token. -/
theorem c9_login_header_panic (status : Nat) (body : Json) (token : String)
    (h : parseResponse parseLoginResponse status body = .ok ⟨token⟩) :
    (isValidHeaderValue token = false → login status body = .panicked) ∧
    (isValidHeaderValue token = true → login status body = .ok ⟨token⟩) := by
  unfold login
  rw [h]
  constructor <;> intro hv <;> simp [hv]

/-- C9 witness: a login body carrying the valid token "abc" returns the
client holding "abc"; one carrying "a\nb" (a newline is not a valid
header byte) panics. -/
theorem c9_login_header_panic_witness :
    login 201 (Json.obj [("data", .obj [("session-token", .str "abc")])]) =
      .ok ⟨"abc"⟩ ∧
    login 201 (Json.obj [("data", .obj [("session-token", .str "a\nb")])]) =
      .panicked :=
  ⟨(c9_login_header_panic 201
      (Json.obj [("data", .obj [("session-token", .str "abc")])])
      "abc" rfl).2 (by decide),
   (c9_login_header_panic 201
      (Json.obj [("data", .obj [("session-token", .str "a\nb")])])
      "a\nb" rfl).1 (by decide)⟩

/-- C10: `post` serializes its payload with
`serde_json::to_string(...).unwrap()` — for any payload whose
serialization fails it panics rather than returning a typed error — and
for an `Order` produced by the builder the serialization always succeeds,
so the panic branch is unreachable. -/
theorem c10_post_serialize_panic {P T : Type} (ser : P → Option Json)
    (p : P) (pd : Json → Except DeError T) (status : Nat) (body : Json) :
    (ser p = none → postOutcome ser p pd status body = .panicked) ∧
    (∀ o : Order, Order.serialize o ≠ none) ∧
    (∀ o : Order,
      postOutcome Order.serialize o pd status body ≠ .panicked) := by
  refine ⟨?_, ?_, ?_⟩
  · intro h
    simp [postOutcome, h]
  · intro o
    simp [Order.serialize]
  · intro o
    simp [postOutcome, Order.serialize]

/-- C10 witness: a payload whose serialization fails makes `post` panic,
and a concrete builder-produced `Order` never hits the panic branch, at
concrete inputs. -/
theorem c10_post_serialize_panic_witness :
    postOutcome (fun _ : Unit => (none : Option Json)) ()
      (fun _ => (Except.ok Json.null : Except DeError Json)) 200
      Json.null = .panicked ∧
    postOutcome Order.serialize ⟨.Day, .Limit, ⟨1, 0⟩, .Debit, []⟩
      (fun _ => (Except.ok Json.null : Except DeError Json)) 200
      Json.null ≠ .panicked :=
  ⟨(c10_post_serialize_panic (fun _ : Unit => (none : Option Json)) ()
      (fun _ => (Except.ok Json.null : Except DeError Json)) 200
      Json.null).1 rfl,
   (c10_post_serialize_panic (fun _ : Unit => (none : Option Json)) ()
      (fun _ => (Except.ok Json.null : Except DeError Json)) 200
      Json.null).2.2 ⟨.Day, .Limit, ⟨1, 0⟩, .Debit, []⟩⟩

end Tasty
